import Mathlib

/-!
Verification of the chat session state machine of `src/src/App.tsx`
(the `App` component of the CemtrAS AI chat client).

The component's React `useState` hooks become the fields of `AppState`;
each event handler (`handleSendMessage`, `handleRoleChange`,
`handleLoadChat`, `handleNewChat`, `handleLogout`, `clearError`) becomes a
pure function on `AppState`.  The asynchronous AI call
(`generateResponse`, an external collaborator) is modelled by an
`AIOutcome` argument giving the settled result of the awaited promise, so
one call of `handleSendMessage` covers the whole round trip.  The
auto-save `useEffect` (App.tsx lines 160-172) is modelled with React's
dependency-array semantics: the effect body runs at mount and whenever
the dependency tuple differs from the previous render's.
-/

namespace CemtrAS

/-- The `role` field of a chat `Message` (`'user' | 'assistant'` in `types.ts`,
as constructed at App.tsx lines 120-125 and 141-146). -/
inductive MsgRole where
  | user
  | assistant
deriving DecidableEq, Repr

/-- A chat message as constructed in `handleSendMessage`:
`id` is `Date.now().toString()`, `timestamp` is the creation time
(`new Date()` modelled as the same clock value `now`). -/
structure Message where
  id : String
  role : MsgRole
  content : String
  timestamp : Nat
deriving DecidableEq, Repr

/-- Modelled from the spec: the `UserRole` union of `types.ts` is not under
`src/`; the spec's Role Registry lists the fixed expertise roles
(Operations, Maintenance, Project Management, Sales & Marketing,
Procurement, Erection & Commissioning, Engineering & Design) plus the
authenticated-only "General AI".  `handleRoleChange` takes a value of the
union type `UserRole | 'General AI'`. -/
inductive Role where
  | operations
  | maintenance
  | projectManagement
  | salesMarketing
  | procurement
  | erectionCommissioning
  | engineeringDesign
  | generalAI
deriving DecidableEq, Repr

/-- The `ChatState` record held in the `chatState` hook (App.tsx lines 21-26). -/
structure ChatState where
  messages : List Message
  isLoading : Bool
  selectedRole : Role
  uploadedFiles : List String
deriving DecidableEq, Repr

/-- A saved conversation as consumed by `handleLoadChat` (App.tsx lines
182-194): the fields of `ChatHistory` that `App` reads (`messages`,
`role`, `id`). -/
structure ChatHistory where
  id : String
  messages : List Message
  role : Role
deriving DecidableEq, Repr

/-- The state of the `App` component: one field per `useState` hook
(App.tsx lines 19-29), plus `currentChatId`, the conversation identifier
the component drives through `setCurrentChatId` of the chat-history
context. -/
structure AppState where
  showLogin : Bool
  showAuth : Bool
  chatState : ChatState
  error : Option String
  sidebarOpen : Bool
  showLogoutConfirm : Bool
  currentChatId : Option String
deriving DecidableEq, Repr

/-- The settled result of the awaited `generateResponse` promise: it either
fulfills with the response text, or rejects; a rejection carries
`some message` when the thrown value is an `Error` (so `err.message` is
read) and `none` otherwise. -/
inductive AIOutcome where
  | ok (text : String)
  | thrown (message : Option String)
deriving DecidableEq, Repr

/-- The string stored by the catch branch (App.tsx line 155):
`err instanceof Error ? err.message : 'An unexpected error occurred'`. -/
def displayedError : Option String → String
  | some m => m
  | none => "An unexpected error occurred"

/-- The user `Message` built at App.tsx lines 120-125. -/
def userMessage (now : Nat) (content : String) : Message :=
  { id := toString now, role := .user, content := content, timestamp := now }

/-- The assistant `Message` built at App.tsx lines 141-146
(`id` is `(Date.now() + 1).toString()`). -/
def assistantMessage (now : Nat) (aiResponse : String) : Message :=
  { id := toString (now + 1), role := .assistant, content := aiResponse, timestamp := now }

/-- The recurring mobile pattern `if (window.innerWidth < 768) setSidebarOpen(false)`
(App.tsx lines 134-136, 177-179, 191-193, 203-206). -/
def closeSidebarOnMobile (s : AppState) (innerWidth : Nat) : AppState :=
  if innerWidth < 768 then { s with sidebarOpen := false } else s

/-- `handleSendMessage` (App.tsx lines 117-157).  The only guard is
`if (error) return;` (line 118).  On the happy path it appends the user
message and sets `isLoading`, awaits `generateResponse`, then either
appends the assistant message and clears `isLoading`, or clears
`isLoading` and stores the failure message in `error`. -/
def handleSendMessage (s : AppState) (content : String) (now : Nat)
    (outcome : AIOutcome) (innerWidth : Nat) : AppState :=
  match s.error with
  | some _ => s
  | none =>
    let s1 : AppState :=
      { s with chatState :=
          { s.chatState with
              messages := s.chatState.messages ++ [userMessage now content],
              isLoading := true } }
    let s2 : AppState := closeSidebarOnMobile s1 innerWidth
    match outcome with
    | .ok aiResponse =>
        { s2 with chatState :=
            { s2.chatState with
                messages := s2.chatState.messages ++ [assistantMessage now aiResponse],
                isLoading := false } }
    | .thrown m =>
        { s2 with chatState := { s2.chatState with isLoading := false },
                  error := some (displayedError m) }

/-- `handleSendMessage` reaches the `generateResponse` call (App.tsx line
139) exactly when the early-return guard `if (error) return;` (line 118)
does not fire: the call issues an AI request iff no error is set. -/
def generateResponseInvoked (s : AppState) : Bool :=
  s.error.isNone

/-- The `isLoading` prop handed to `ChatInput` (App.tsx line 484):
`chatState.isLoading || !!error`; it is the condition under which the
input component is put in its disabled/loading mode. -/
def chatInputDisabled (s : AppState) : Bool :=
  s.chatState.isLoading || s.error.isSome

/-- `handleRoleChange` (App.tsx lines 174-180): unconditionally stores the
requested role, then closes the sidebar on mobile. -/
def handleRoleChange (s : AppState) (role : Role) (innerWidth : Nat) : AppState :=
  closeSidebarOnMobile
    { s with chatState := { s.chatState with selectedRole := role } } innerWidth

/-- `handleLoadChat` (App.tsx lines 182-194): installs the record's
messages and role, clears `isLoading`, sets the current chat id. -/
def handleLoadChat (s : AppState) (history : ChatHistory) (innerWidth : Nat) : AppState :=
  closeSidebarOnMobile
    { s with
        chatState :=
          { s.chatState with
              messages := history.messages,
              selectedRole := history.role,
              isLoading := false },
        currentChatId := some history.id } innerWidth

/-- `handleNewChat` (App.tsx lines 196-207): empties the message list,
clears `isLoading`, clears the current chat id. -/
def handleNewChat (s : AppState) (innerWidth : Nat) : AppState :=
  closeSidebarOnMobile
    { s with
        chatState := { s.chatState with messages := [], isLoading := false },
        currentChatId := none } innerWidth

/-- `clearError` (App.tsx line 209): `setError(null)`. -/
def clearError (s : AppState) : AppState :=
  { s with error := none }

/-- `handleLogout` (App.tsx lines 103-115): resets `chatState` to its
initial literal, clears the chat id, hides the confirm modal, shows the
login screen, closes the sidebar.  (It does not touch `error`.) -/
def handleLogout (s : AppState) : AppState :=
  { s with
      chatState :=
        { messages := [], isLoading := false, selectedRole := .operations,
          uploadedFiles := [] },
      currentChatId := none,
      showLogoutConfirm := false,
      showLogin := true,
      sidebarOpen := false }

/-- The configuration error stored by the mount effect at App.tsx lines
49-53 when `import.meta.env.VITE_GEMINI_API_KEY` is absent. -/
def configErrorMessage : String :=
  "GEMINI_API_KEY is not configured. Please set VITE_GEMINI_API_KEY in your environment variables."

/-- Whether `pat` occurs at the very start of `s` (character lists). -/
def charsStartWith : List Char → List Char → Bool
  | _, [] => true
  | [], _ :: _ => false
  | a :: as, b :: bs => a == b && charsStartWith as bs

/-- Whether `pat` occurs contiguously anywhere in `s` (character lists). -/
def charsContain : List Char → List Char → Bool
  | [], pat => charsStartWith [] pat
  | a :: rest, pat => charsStartWith (a :: rest) pat || charsContain rest pat

/-- JavaScript `String.prototype.includes`: the pattern occurs as a
contiguous substring. -/
def includesSubstr (s pat : String) : Bool :=
  charsContain s.toList pat.toList

/-- Whether the rendered error banner offers a retry control (App.tsx
lines 396-403): the banner shows only while `error` is set, and its
`onRetry` is `undefined` when `error.includes('GEMINI_API_KEY')` and
`clearError` otherwise. -/
def retryAffordance (s : AppState) : Bool :=
  match s.error with
  | none => false
  | some e => !(includesSubstr e "GEMINI_API_KEY")

/-- The initial `chatState` literal (App.tsx lines 21-26). -/
def initialChatState : ChatState :=
  { messages := [], isLoading := false, selectedRole := .operations,
    uploadedFiles := [] }

/-- The component state after mount: the `useState` initial values
(App.tsx lines 19-29) with the two mount effects applied — lines 41-46
hide the login screen when already authenticated, and lines 49-53 store
the configuration error when the API key is absent. -/
def startupState (isAuthenticated : Bool) (apiKeyPresent : Bool) : AppState :=
  { showLogin := !isAuthenticated,
    showAuth := false,
    chatState := initialChatState,
    error := if apiKeyPresent then none else some configErrorMessage,
    sidebarOpen := false,
    showLogoutConfirm := false,
    currentChatId := none }

/-- The payload handed to `saveChatHistory` (App.tsx lines 166-169):
the full current message list and the selected role. -/
structure SavePayload where
  messages : List Message
  role : Role
deriving DecidableEq, Repr

/-- `hasUserMessage` (App.tsx line 162). -/
def hasUserMessage (msgs : List Message) : Bool :=
  msgs.any fun m => m.role == .user

/-- `hasAIResponse` (App.tsx line 163). -/
def hasAIResponse (msgs : List Message) : Bool :=
  msgs.any fun m => m.role == .assistant

/-- The dependency tuple of the auto-save effect (App.tsx line 172):
`[chatState.messages, isAuthenticated, chatState.selectedRole, saveChatHistory]`
(`saveChatHistory` is a stable context function and is dropped). -/
structure EffectDeps where
  messages : List Message
  isAuthenticated : Bool
  selectedRole : Role
deriving DecidableEq, Repr

/-- The dependency tuple read off the current render. -/
def depsOf (isAuthenticated : Bool) (c : ChatState) : EffectDeps :=
  { messages := c.messages, isAuthenticated := isAuthenticated,
    selectedRole := c.selectedRole }

/-- The body of the auto-save effect (App.tsx lines 160-172): under
`isAuthenticated && messages.length >= 2` and
`hasUserMessage && hasAIResponse`, call `saveChatHistory` with the full
message list and the selected role; otherwise do nothing. -/
def autoSaveAction (d : EffectDeps) : Option SavePayload :=
  if d.isAuthenticated && decide (2 ≤ d.messages.length) then
    if hasUserMessage d.messages && hasAIResponse d.messages then
      some { messages := d.messages, role := d.selectedRole }
    else none
  else none

/-- React dependency-array semantics: the effect body runs at the first
render and at every render whose dependency tuple differs from the
previous render's. -/
def effectRuns : Option EffectDeps → EffectDeps → Bool
  | none, _ => true
  | some p, d => p != d

/-- The saves the auto-save effect issues over a sequence of renders,
given the previous render's dependency tuple (if any): at each render the
body runs iff the dependencies changed, and may issue one save. -/
def autoSaveRuns : Option EffectDeps → List EffectDeps → List SavePayload
  | _, [] => []
  | prev, d :: rest =>
      (if effectRuns prev d then (autoSaveAction d).toList else [])
        ++ autoSaveRuns (some d) rest

/-- A user action on the chat screen, as wired in the rendered markup:
`ChatInput.onSend`, `RoleSelector.onRoleChange`, `ChatHistoryList.onLoadChat`
and `.onNewChat`, the error banner's retry control, and the confirmed
logout.  A `send` carries the settled outcome of its AI round trip. -/
inductive UIAction where
  | send (content : String) (now : Nat) (outcome : AIOutcome) (innerWidth : Nat)
  | roleChange (role : Role) (innerWidth : Nat)
  | loadChat (history : ChatHistory) (innerWidth : Nat)
  | newChat (innerWidth : Nat)
  | retryClick
  | logoutConfirmed
deriving Repr

/-- Dispatch of a user action to its handler.  `retryClick` follows the
error banner wiring (App.tsx lines 396-403): the banner exists only when
an error is set, and its retry control is `clearError` unless the error
message contains `'GEMINI_API_KEY'`, in which case `onRetry` is
`undefined` and no control is rendered. -/
def applyAction (s : AppState) : UIAction → AppState
  | .send content now outcome innerWidth =>
      handleSendMessage s content now outcome innerWidth
  | .roleChange role innerWidth => handleRoleChange s role innerWidth
  | .loadChat history innerWidth => handleLoadChat s history innerWidth
  | .newChat innerWidth => handleNewChat s innerWidth
  | .retryClick =>
      match s.error with
      | none => s
      | some e => if includesSubstr e "GEMINI_API_KEY" then s else clearError s
  | .logoutConfirmed => handleLogout s

/-- A whole session: the actions applied in order. -/
def applyActions (s : AppState) (acts : List UIAction) : AppState :=
  acts.foldl applyAction s

/-! ### Projection lemmas for the shared mobile-sidebar helper -/

@[simp]
theorem closeSidebarOnMobile_chatState (s : AppState) (w : Nat) :
    (closeSidebarOnMobile s w).chatState = s.chatState := by
  unfold closeSidebarOnMobile; split <;> rfl

@[simp]
theorem closeSidebarOnMobile_error (s : AppState) (w : Nat) :
    (closeSidebarOnMobile s w).error = s.error := by
  unfold closeSidebarOnMobile; split <;> rfl

@[simp]
theorem closeSidebarOnMobile_currentChatId (s : AppState) (w : Nat) :
    (closeSidebarOnMobile s w).currentChatId = s.currentChatId := by
  unfold closeSidebarOnMobile; split <;> rfl

/-! ### Shared lemmas about `handleSendMessage` -/

/-- While any error is set, `handleSendMessage` is the identity (the
guard `if (error) return;` at App.tsx line 118). -/
theorem handleSendMessage_noop (s : AppState) (e c : String) (n : Nat)
    (o : AIOutcome) (w : Nat) (h : s.error = some e) :
    handleSendMessage s c n o w = s := by
  unfold handleSendMessage
  rw [h]

/-- The message list after a successful send from a no-error state. -/
theorem handleSendMessage_ok_messages (s : AppState) (c t : String) (n w : Nat)
    (h : s.error = none) :
    (handleSendMessage s c n (AIOutcome.ok t) w).chatState.messages
      = s.chatState.messages ++ [userMessage n c, assistantMessage n t] := by
  simp [handleSendMessage, h]

/-! ### Concrete states used by witnesses and counterexamples -/

/-- A mid-flight state: one user message appended, `isLoading` set, no
error — exactly the state `handleSendMessage` creates between its
optimistic update and the settling of `generateResponse`. -/
def loadingState : AppState :=
  { showLogin := false, showAuth := false,
    chatState := { messages := [userMessage 0 "q"], isLoading := true,
                   selectedRole := .operations, uploadedFiles := [] },
    error := none, sidebarOpen := false, showLogoutConfirm := false,
    currentChatId := none }

/-- The state after a send whose AI call rejected with "network timeout". -/
def failedState : AppState :=
  handleSendMessage (startupState true true) "q" 0
    (AIOutcome.thrown (some "network timeout")) 1024

/-- A state with a transient request error recorded and one user message,
as left behind by a failed send, with a saved conversation selected. -/
def erroredState : AppState :=
  { showLogin := false, showAuth := false,
    chatState := { messages := [userMessage 0 "q"], isLoading := false,
                   selectedRole := .salesMarketing, uploadedFiles := [] },
    error := some "network timeout", sidebarOpen := false,
    showLogoutConfirm := false, currentChatId := some "chat1" }

/-! ### Claim C1 -/

/-- Claim C1: a `sendMessage` issued in `Idle` (not loading, no error
recorded) whose AI round trip succeeds appends exactly two messages, the
user message with the given text first and then the assistant message
with the responder's returned text, leaves the loading flag false, and
grows the message count by exactly 2. -/
theorem claim1_send_success (s : AppState) (content text : String)
    (now innerWidth : Nat)
    (_hIdle : s.chatState.isLoading = false) (hErr : s.error = none) :
    (handleSendMessage s content now (AIOutcome.ok text) innerWidth).chatState.messages
        = s.chatState.messages ++ [userMessage now content, assistantMessage now text]
    ∧ (handleSendMessage s content now (AIOutcome.ok text) innerWidth).chatState.isLoading
        = false
    ∧ (handleSendMessage s content now (AIOutcome.ok text) innerWidth).chatState.messages.length
        = s.chatState.messages.length + 2 := by
  refine ⟨?_, ?_, ?_⟩ <;> simp [handleSendMessage, hErr]

/-- Witness for C1 at a concrete input: the scenario of spec §8.7. -/
theorem claim1_send_success_witness :
    (handleSendMessage (startupState true true) "What is clinker?" 5
        (AIOutcome.ok "Clinker is...") 1024).chatState.messages
        = (startupState true true).chatState.messages
          ++ [userMessage 5 "What is clinker?", assistantMessage 5 "Clinker is..."]
    ∧ (handleSendMessage (startupState true true) "What is clinker?" 5
        (AIOutcome.ok "Clinker is...") 1024).chatState.isLoading = false
    ∧ (handleSendMessage (startupState true true) "What is clinker?" 5
        (AIOutcome.ok "Clinker is...") 1024).chatState.messages.length
        = (startupState true true).chatState.messages.length + 2 :=
  claim1_send_success (startupState true true) "What is clinker?" "Clinker is..."
    5 1024 rfl rfl

/-! ### Claim C2 -/

/-- Claim C2 is false on the code: in the mid-flight state (loading flag
true, no error) a further `handleSendMessage` call is not a no-op — the
guard at App.tsx line 118 checks only `error`, so the call changes the
message list and reaches a second `generateResponse` call. -/
theorem claim2_counterexample :
    loadingState.chatState.isLoading = true
    ∧ loadingState.error = none
    ∧ (handleSendMessage loadingState "hi" 7 (AIOutcome.ok "yo") 1024).chatState.messages
        ≠ loadingState.chatState.messages
    ∧ generateResponseInvoked loadingState = true := by decide

/-- Claim C2 amended: `handleSendMessage` does not consult the loading
flag; invoked while a request is outstanding with no error set, it
proceeds — appends the user message (and the assistant message on
success) and issues a second AI request.  Concurrent sends are prevented
only at the presentation layer: the input component is put in its
disabled mode whenever the loading flag is set. -/
theorem claim2_loading_not_rejected (s : AppState) (content text emsg : String)
    (now innerWidth : Nat)
    (hLoad : s.chatState.isLoading = true) (hErr : s.error = none) :
    (handleSendMessage s content now (AIOutcome.ok text) innerWidth).chatState.messages
        = s.chatState.messages ++ [userMessage now content, assistantMessage now text]
    ∧ (handleSendMessage s content now (AIOutcome.thrown (some emsg)) innerWidth).chatState.messages
        = s.chatState.messages ++ [userMessage now content]
    ∧ generateResponseInvoked s = true
    ∧ chatInputDisabled s = true := by
  refine ⟨?_, ?_, ?_, ?_⟩
  · simp [handleSendMessage, hErr]
  · simp [handleSendMessage, hErr, displayedError]
  · simp [generateResponseInvoked, hErr]
  · simp [chatInputDisabled, hLoad]

/-- Witness for the amended C2 at the concrete mid-flight state. -/
theorem claim2_loading_not_rejected_witness :
    (handleSendMessage loadingState "hi" 7 (AIOutcome.ok "yo") 1024).chatState.messages
        = loadingState.chatState.messages ++ [userMessage 7 "hi", assistantMessage 7 "yo"]
    ∧ (handleSendMessage loadingState "hi" 7 (AIOutcome.thrown (some "boom")) 1024).chatState.messages
        = loadingState.chatState.messages ++ [userMessage 7 "hi"]
    ∧ generateResponseInvoked loadingState = true
    ∧ chatInputDisabled loadingState = true :=
  claim2_loading_not_rejected loadingState "hi" "yo" "boom" 7 1024 rfl rfl

/-! ### Claim C3 -/

/-- Claim C3 is false as stated in its last part: after a failed send the
error is recorded, and precisely because it is recorded, an immediate
resend is a no-op (`if (error) return;`) and the input is disabled — the
user cannot resend until the error is cleared. -/
theorem claim3_counterexample :
    failedState.error = some "network timeout"
    ∧ handleSendMessage failedState "q" 2 (AIOutcome.ok "answer") 1024 = failedState
    ∧ chatInputDisabled failedState = true := by decide

/-- Claim C3 amended: when the AI call rejects, the failure's message is
recorded as the current error, the loading flag is cleared, and the
message list holds the appended user message but no assistant message.
The failure is non-fatal, but the user can resend only after the error
is cleared (the retry affordance runs `clearError`): while the error is
set every `handleSendMessage` call is a no-op, and after `clearError` a
resend proceeds normally. -/
theorem claim3_failure_recorded (s : AppState) (content emsg : String)
    (now innerWidth : Nat) (hErr : s.error = none) :
    (handleSendMessage s content now (AIOutcome.thrown (some emsg)) innerWidth).error
        = some emsg
    ∧ (handleSendMessage s content now (AIOutcome.thrown (some emsg)) innerWidth).chatState.isLoading
        = false
    ∧ (handleSendMessage s content now (AIOutcome.thrown (some emsg)) innerWidth).chatState.messages
        = s.chatState.messages ++ [userMessage now content]
    ∧ (∀ c n o w,
        handleSendMessage
            (handleSendMessage s content now (AIOutcome.thrown (some emsg)) innerWidth) c n o w
          = handleSendMessage s content now (AIOutcome.thrown (some emsg)) innerWidth)
    ∧ (∀ c2 t2 n2 w2,
        (handleSendMessage
            (clearError (handleSendMessage s content now (AIOutcome.thrown (some emsg)) innerWidth))
            c2 n2 (AIOutcome.ok t2) w2).chatState.messages
          = (s.chatState.messages ++ [userMessage now content])
            ++ [userMessage n2 c2, assistantMessage n2 t2]) := by
  have hset :
      (handleSendMessage s content now (AIOutcome.thrown (some emsg)) innerWidth).error
        = some emsg := by
    simp [handleSendMessage, hErr, displayedError]
  have hmsgs :
      (handleSendMessage s content now (AIOutcome.thrown (some emsg)) innerWidth).chatState.messages
        = s.chatState.messages ++ [userMessage now content] := by
    simp [handleSendMessage, hErr]
  refine ⟨hset, ?_, hmsgs, ?_, ?_⟩
  · simp [handleSendMessage, hErr]
  · intro c n o w
    exact handleSendMessage_noop _ emsg c n o w hset
  · intro c2 t2 n2 w2
    rw [handleSendMessage_ok_messages _ c2 t2 n2 w2 (by simp [clearError])]
    simp [clearError, hmsgs]

/-- Witness for the amended C3: the "network timeout" scenario of spec §8.8. -/
theorem claim3_failure_recorded_witness :
    (handleSendMessage (startupState true true) "q" 0
        (AIOutcome.thrown (some "network timeout")) 1024).error = some "network timeout"
    ∧ (handleSendMessage (startupState true true) "q" 0
        (AIOutcome.thrown (some "network timeout")) 1024).chatState.isLoading = false
    ∧ (handleSendMessage (startupState true true) "q" 0
        (AIOutcome.thrown (some "network timeout")) 1024).chatState.messages
        = (startupState true true).chatState.messages ++ [userMessage 0 "q"]
    ∧ (∀ c n o w,
        handleSendMessage
            (handleSendMessage (startupState true true) "q" 0
              (AIOutcome.thrown (some "network timeout")) 1024) c n o w
          = handleSendMessage (startupState true true) "q" 0
              (AIOutcome.thrown (some "network timeout")) 1024)
    ∧ (∀ c2 t2 n2 w2,
        (handleSendMessage
            (clearError (handleSendMessage (startupState true true) "q" 0
              (AIOutcome.thrown (some "network timeout")) 1024))
            c2 n2 (AIOutcome.ok t2) w2).chatState.messages
          = ((startupState true true).chatState.messages ++ [userMessage 0 "q"])
            ++ [userMessage n2 c2, assistantMessage n2 t2]) :=
  claim3_failure_recorded (startupState true true) "q" "network timeout" 0 1024 rfl

/-! ### Claim C4 -/

/-- Claim C4 is false on the code: `handleSendMessage` applies no
emptiness or whitespace check — sending `""` or `"   "` from a fresh
no-error state appends messages rather than leaving the state unchanged. -/
theorem claim4_counterexample :
    (startupState true true).error = none
    ∧ (handleSendMessage (startupState true true) "" 0 (AIOutcome.ok "r") 1024).chatState.messages
        = [userMessage 0 "", assistantMessage 0 "r"]
    ∧ (handleSendMessage (startupState true true) "   " 0 (AIOutcome.ok "r") 1024).chatState.messages
        ≠ (startupState true true).chatState.messages := by decide

/-- Claim C4 amended: `handleSendMessage` performs no validation of the
text; invoked with empty or whitespace-only content while no error is
set, it proceeds — appends a user message with that content and issues
the AI request.  Any rejection of empty sends happens in the input
component before the handler is invoked. -/
theorem claim4_empty_send_not_rejected (s : AppState) (content text : String)
    (now innerWidth : Nat) (hErr : s.error = none)
    (_hWs : content.toList.all (fun c => c.isWhitespace) = true) :
    (handleSendMessage s content now (AIOutcome.ok text) innerWidth).chatState.messages
        = s.chatState.messages ++ [userMessage now content, assistantMessage now text]
    ∧ generateResponseInvoked s = true := by
  exact ⟨by simp [handleSendMessage, hErr], by simp [generateResponseInvoked, hErr]⟩

/-- Witness for the amended C4 at whitespace-only content. -/
theorem claim4_empty_send_not_rejected_witness :
    (handleSendMessage (startupState true true) "   " 0 (AIOutcome.ok "r") 1024).chatState.messages
        = (startupState true true).chatState.messages
          ++ [userMessage 0 "   ", assistantMessage 0 "r"]
    ∧ generateResponseInvoked (startupState true true) = true :=
  claim4_empty_send_not_rejected (startupState true true) "   " "r" 0 1024 rfl
    (by decide)

/-! ### Claim C5 -/

/-- The configuration error message contains the marker that suppresses
the retry control (App.tsx line 400). -/
theorem configErrorMessage_includes_key :
    includesSubstr configErrorMessage "GEMINI_API_KEY" = true := by decide

/-- No user action on the chat screen can remove the configuration
error: sends are no-ops while an error is set, role change, chat load,
new chat and logout never touch `error`, and the retry control is not
rendered for an error containing `'GEMINI_API_KEY'`. -/
theorem applyAction_keeps_configError (s : AppState) (a : UIAction)
    (h : s.error = some configErrorMessage) :
    (applyAction s a).error = some configErrorMessage := by
  cases a with
  | send c n o w =>
      rw [applyAction, handleSendMessage_noop s configErrorMessage c n o w h]
      exact h
  | roleChange r w => simpa [applyAction, handleRoleChange] using h
  | loadChat hist w => simpa [applyAction, handleLoadChat] using h
  | newChat w => simpa [applyAction, handleNewChat] using h
  | retryClick => simp [applyAction, h, configErrorMessage_includes_key]
  | logoutConfirmed => simpa [applyAction, handleLogout] using h

/-- The configuration error survives any whole session of user actions. -/
theorem applyActions_keeps_configError (acts : List UIAction) (s : AppState)
    (h : s.error = some configErrorMessage) :
    (applyActions s acts).error = some configErrorMessage := by
  induction acts generalizing s with
  | nil => simpa [applyActions] using h
  | cons a rest ih =>
      show (List.foldl applyAction (applyAction s a) rest).error = _
      exact ih (applyAction s a) (applyAction_keeps_configError s a h)

/-- Claim C5: when the AI credential is absent at startup, the mount
effect records the configuration error immediately; after any sequence
of user actions the error is still recorded (no action clears it — the
error banner offers no retry control for it), and `handleSendMessage` is
a no-op in every reachable state, i.e. sends are permanently disabled. -/
theorem claim5_missing_credential_blocks (isAuthenticated : Bool)
    (acts : List UIAction) :
    (startupState isAuthenticated false).error = some configErrorMessage
    ∧ (applyActions (startupState isAuthenticated false) acts).error
        = some configErrorMessage
    ∧ (∀ content now outcome innerWidth,
        handleSendMessage (applyActions (startupState isAuthenticated false) acts)
            content now outcome innerWidth
          = applyActions (startupState isAuthenticated false) acts)
    ∧ retryAffordance (applyActions (startupState isAuthenticated false) acts)
        = false := by
  have h0 : (startupState isAuthenticated false).error = some configErrorMessage := by
    simp [startupState]
  have htr := applyActions_keeps_configError acts _ h0
  refine ⟨h0, htr, ?_, ?_⟩
  · intro content now outcome innerWidth
    exact handleSendMessage_noop _ configErrorMessage content now outcome innerWidth htr
  · simp [retryAffordance, htr, configErrorMessage_includes_key]

/-! ### Claim C6 -/

/-- When `autoSaveAction` fires, its four guard conditions hold, and
conversely. -/
theorem autoSaveAction_isSome_iff (d : EffectDeps) :
    (autoSaveAction d).isSome = true
      ↔ d.isAuthenticated = true ∧ 2 ≤ d.messages.length
        ∧ hasUserMessage d.messages = true ∧ hasAIResponse d.messages = true := by
  unfold autoSaveAction
  split
  case isTrue h1 =>
    split
    case isTrue h2 => simp_all
    case isFalse h2 => simp_all
  case isFalse h1 => simp_all

/-- The effect body runs exactly when the dependency tuple changed. -/
theorem effectRuns_iff (prev : Option EffectDeps) (d : EffectDeps) :
    effectRuns prev d = true ↔ prev ≠ some d := by
  cases prev with
  | none => simp [effectRuns]
  | some p => simp [effectRuns, bne_iff_ne]

/-- The amended Claim C6: at each render, the auto-save effect issues a
save iff the dependency tuple (messages, authentication flag, selected
role) changed since the previous render AND the session is
authenticated, the message count is at least 2, and the list has both a
user and an assistant message; the payload is always the full current
message list with the selected role; an unauthenticated render never
saves.  (Uniqueness per distinct snapshot fails — see the
counterexample.) -/
theorem claim6_autosave_condition (prev : Option EffectDeps) (d : EffectDeps) :
    ((effectRuns prev d && (autoSaveAction d).isSome) = true
      ↔ prev ≠ some d ∧ d.isAuthenticated = true ∧ 2 ≤ d.messages.length
        ∧ hasUserMessage d.messages = true ∧ hasAIResponse d.messages = true)
    ∧ (∀ p, autoSaveAction d = some p
        → p = { messages := d.messages, role := d.selectedRole })
    ∧ (d.isAuthenticated = false → autoSaveAction d = none) := by
  refine ⟨?_, ?_, ?_⟩
  · rw [Bool.and_eq_true, effectRuns_iff, autoSaveAction_isSome_iff]
  · intro p hp
    unfold autoSaveAction at hp
    split at hp
    · split at hp
      · exact (Option.some.injEq _ _ ▸ hp).symm
      · exact absurd hp (by simp)
    · exact absurd hp (by simp)
  · intro h
    unfold autoSaveAction
    simp [h]

/-- The eligible message list of the C6 counterexample trace. -/
def cexMsgs : List Message := [userMessage 0 "q", assistantMessage 0 "a"]

/-- The first and third render of the C6 counterexample trace. -/
def cexDeps : EffectDeps :=
  { messages := cexMsgs, isAuthenticated := true, selectedRole := .operations }

/-- Three authenticated renders: role switched away and back over an
unchanged, eligible message list. -/
def cexTrace : List EffectDeps :=
  [cexDeps,
   { messages := cexMsgs, isAuthenticated := true, selectedRole := .salesMarketing },
   cexDeps]

/-- Claim C6 is false in its "exactly once per distinct (message-set,
role) snapshot" part: switching the selected role away and back while an
eligible message list is unchanged re-runs the effect (the role is in
its dependency array) and saves the identical (message-set, role)
payload a second time. -/
theorem claim6_counterexample :
    autoSaveRuns none cexTrace
      = [{ messages := cexMsgs, role := .operations },
         { messages := cexMsgs, role := .salesMarketing },
         { messages := cexMsgs, role := .operations }]
    ∧ (autoSaveRuns none cexTrace).count { messages := cexMsgs, role := Role.operations } = 2
    ∧ (autoSaveAction cexDeps).isSome = true := by decide

/-! ### Claim C7 -/

/-- Claim C7 is false on the code: in an unauthenticated session (guest
startup state) `handleRoleChange` with "General AI" is not ignored — it
installs the role.  The handler takes no authentication input at all;
gating is left to the `RoleSelector` UI. -/
theorem claim7_counterexample :
    (startupState false true).chatState.selectedRole = Role.operations
    ∧ (handleRoleChange (startupState false true) Role.generalAI 1024).chatState.selectedRole
        = Role.generalAI := by decide

/-- Claim C7 amended: `handleRoleChange` unconditionally stores the
requested role for every value of the `UserRole | 'General AI'` type
(membership in the Role Registry is only the parameter's type; there is
no authentication check in the handler — the "General AI" gating lives
in the role-selector UI), and it leaves messages, loading flag and error
unchanged. -/
theorem claim7_role_change_unconditional (s : AppState) (role : Role)
    (innerWidth : Nat) :
    (handleRoleChange s role innerWidth).chatState.selectedRole = role
    ∧ (handleRoleChange s role innerWidth).chatState.messages = s.chatState.messages
    ∧ (handleRoleChange s role innerWidth).chatState.isLoading = s.chatState.isLoading
    ∧ (handleRoleChange s role innerWidth).error = s.error := by
  refine ⟨?_, ?_, ?_, ?_⟩ <;> simp [handleRoleChange]

/-! ### Claim C8 -/

/-- Claim C8 is false in its "error is cleared" part: `handleNewChat`
only resets `messages`, `isLoading` and the chat id — the `error` hook
is untouched and survives the new conversation. -/
theorem claim8_counterexample :
    (handleNewChat erroredState 1024).error = some "network timeout"
    ∧ erroredState.error = some "network timeout" := by decide

/-- Claim C8 amended: after `handleNewChat` the message list is empty,
the loading flag is false, the selected role is preserved and the
current chat id is cleared — but the current error is preserved, not
cleared. -/
theorem claim8_new_chat (s : AppState) (innerWidth : Nat) :
    (handleNewChat s innerWidth).chatState.messages = []
    ∧ (handleNewChat s innerWidth).chatState.isLoading = false
    ∧ (handleNewChat s innerWidth).chatState.selectedRole = s.chatState.selectedRole
    ∧ (handleNewChat s innerWidth).currentChatId = none
    ∧ (handleNewChat s innerWidth).error = s.error := by
  refine ⟨?_, ?_, ?_, ?_, ?_⟩ <;> simp [handleNewChat]

/-! ### Claim C9 -/

/-- Claim C9 is false in its "clears any current error" part:
`handleLoadChat` installs the record's contents but leaves the `error`
hook untouched. -/
theorem claim9_counterexample :
    (handleLoadChat erroredState
        { id := "c2", messages := [userMessage 1 "x", assistantMessage 1 "y"],
          role := Role.maintenance } 1024).error
      = some "network timeout" := by decide

/-- Claim C9 amended: `handleLoadChat` replaces the message list and the
selected role with the record's contents, clears the loading flag and
sets the current chat id to the record's id — but the current error is
preserved, not cleared. -/
theorem claim9_load_chat (s : AppState) (history : ChatHistory)
    (innerWidth : Nat) :
    (handleLoadChat s history innerWidth).chatState.messages = history.messages
    ∧ (handleLoadChat s history innerWidth).chatState.selectedRole = history.role
    ∧ (handleLoadChat s history innerWidth).chatState.isLoading = false
    ∧ (handleLoadChat s history innerWidth).currentChatId = some history.id
    ∧ (handleLoadChat s history innerWidth).error = s.error := by
  refine ⟨?_, ?_, ?_, ?_, ?_⟩ <;> simp [handleLoadChat]

/-! ### Claim C10 -/

/-- Claim C10: `clearError` unconditionally sets the error to `null` for
every state — including one holding the configuration error — and
changes no other component (chat state, chat id, screen flags); the
configuration error's non-clearability is enforced only by the
presentation layer, which omits the retry control exactly when the error
message contains `'GEMINI_API_KEY'` while granting it to other errors. -/
theorem claim10_clear_error_frame (s : AppState) :
    (clearError s).error = none
    ∧ (clearError { s with error := some configErrorMessage }).error = none
    ∧ (clearError s).chatState = s.chatState
    ∧ (clearError s).currentChatId = s.currentChatId
    ∧ (clearError s).showLogin = s.showLogin
    ∧ (clearError s).showAuth = s.showAuth
    ∧ retryAffordance { s with error := some configErrorMessage } = false
    ∧ retryAffordance { s with error := some "network timeout" } = true := by
  refine ⟨rfl, rfl, rfl, rfl, rfl, rfl, ?_, ?_⟩
  · simp [retryAffordance, configErrorMessage_includes_key]
  · simp [retryAffordance]
    decide

end CemtrAS
